import Mathlib

/-!
Verification of the KYC geo-intelligence risk core against its source.

The definitions below are a shallow embedding of the Python modules
`app/risk_analyzer.py` and `app/satellite_analyzer.py` (with the two risk
thresholds taken from `config.py`'s defaults).  Python floats are modelled by
`ℚ`; Python dicts that carry a fixed set of keys are modelled by structures
whose fields are those keys after the source's defaulted `.get` reads; the
results of opaque OpenCV primitives (contours, polygon approximation, Hough
lines, pixel masks) are modelled as data supplied with the decoded image.
-/

namespace KYC

/-- Models Python's `str.lower()` on the ASCII business-type strings this
system handles, character by character. -/
def strLower (s : String) : String := ⟨s.data.map Char.toLower⟩

/-- `config.py`: `HIGH_RISK_THRESHOLD = float(os.getenv(..., '0.7'))` (default). -/
def HIGH_RISK_THRESHOLD : ℚ := 7/10

/-- `config.py`: `MEDIUM_RISK_THRESHOLD = float(os.getenv(..., '0.4'))` (default). -/
def MEDIUM_RISK_THRESHOLD : ℚ := 2/5

/-! ## Satellite computer-vision feature extraction (`satellite_analyzer.py`) -/

/-- An external contour of the Canny edge map, as handed back by OpenCV.
`approxVertexCount` is the vertex count of `cv2.approxPolyDP` at tolerance
`0.02 * perimeter` (line 211-212 of the source); the CV primitive itself is
opaque, so its result is carried as data. -/
structure Contour where
  area : ℚ
  perimeter : ℚ
  approxVertexCount : ℕ

/-- One entry of the `buildings` list built at lines 215-219. -/
structure Building where
  area : ℚ
  vertices : ℕ
  perimeter : ℚ

/-- The dict returned by `_detect_buildings` (lines 221-226). -/
structure BuildingDetection where
  building_count : ℕ
  total_building_area : ℚ
  largest_building_area : ℚ
  buildings : List Building

/-- A contour of the bright-pixel mask in `_detect_vehicles`, with its
bounding-box width and height (`cv2.boundingRect`). -/
structure BrightContour where
  area : ℚ
  w : ℚ
  h : ℚ

/-- One entry of the `vehicles` list (lines 247-251; the image-coordinate
`position` pair is carried through unchanged and not read anywhere, so it is
omitted). -/
structure Vehicle where
  area : ℚ
  aspect_ratio : ℚ

/-- The dict returned by `_detect_vehicles` (lines 253-256). -/
structure VehicleDetection where
  vehicle_count : ℕ
  vehicles : List Vehicle

/-- The dict returned by `_analyze_infrastructure` (lines 272-275). -/
structure InfraFeatures where
  detected_lines : ℕ
  infrastructure_density : ℚ

/-- The dict returned by `_analyze_area_characteristics` (lines 298-303). -/
structure AreaChars where
  vegetation_percentage : ℚ
  water_percentage : ℚ
  average_brightness : ℚ
  developed_area_percentage : ℚ

/-- The data a successfully decoded image yields through the opaque OpenCV
primitives: the edge-map contours used for building detection, the bright-mask
contours used for vehicle detection, the Hough line result (`none` when
`cv2.HoughLinesP` returns `None`), and the pixel statistics used by
`_analyze_infrastructure` / `_analyze_area_characteristics`. -/
structure DecodedImage where
  edgeContours : List Contour
  brightContours : List BrightContour
  houghLineCount : Option ℕ
  edgePixelCount : ℕ
  pixelCount : ℕ
  vegetationPixelCount : ℕ
  waterPixelCount : ℕ
  brightnessMean : ℚ

/-- Python's `max(list, default=d)`: the maximum of the list, or `d` when the
list is empty. -/
def pyMax (l : List ℚ) (d : ℚ) : ℚ :=
  match l with
  | [] => d
  | x :: xs => xs.foldl max x

/-- `_detect_buildings` (lines 195-226): keep contours with `area > 1000`
(strict) whose polygon approximation has at least 4 vertices, in contour
order; report count, summed area, `max(..., default=0)`, and `buildings[:10]`
(the first 10 retained buildings in contour order). -/
def detectBuildings (contours : List Contour) : BuildingDetection :=
  let bs := (contours.filter
      (fun c => decide (1000 < c.area ∧ 4 ≤ c.approxVertexCount))).map
    (fun c => Building.mk c.area c.approxVertexCount c.perimeter)
  { building_count := bs.length
    total_building_area := (bs.map (·.area)).sum
    largest_building_area := pyMax (bs.map (·.area)) 0
    buildings := bs.take 10 }

/-- `_detect_vehicles` (lines 228-256): keep bright contours with
`50 < area < 500` and bounding-box aspect ratio `w/h` in `(0.5, 3.0)`. -/
def detectVehicles (contours : List BrightContour) : VehicleDetection :=
  let vs := (contours.filter
      (fun c => decide (50 < c.area ∧ c.area < 500 ∧
        1/2 < c.w / c.h ∧ c.w / c.h < 3))).map
    (fun c => Vehicle.mk c.area (c.w / c.h))
  { vehicle_count := vs.length, vehicles := vs }

/-- `_analyze_infrastructure` (lines 258-275): `len(lines) if lines is not
None else 0`, and edge-pixel density = edge pixels / total pixels. -/
def analyzeInfrastructure (img : DecodedImage) : InfraFeatures :=
  { detected_lines := img.houghLineCount.getD 0
    infrastructure_density := (img.edgePixelCount : ℚ) / (img.pixelCount : ℚ) }

/-- `_analyze_area_characteristics` (lines 277-303). -/
def analyzeAreaCharacteristics (img : DecodedImage) : AreaChars :=
  let veg := (img.vegetationPixelCount : ℚ) / (img.pixelCount : ℚ) * 100
  let water := (img.waterPixelCount : ℚ) / (img.pixelCount : ℚ) * 100
  { vegetation_percentage := veg
    water_percentage := water
    average_brightness := img.brightnessMean
    developed_area_percentage := max 0 (100 - veg - water) }

/-- The dict returned by `_computer_vision_analysis` (lines 158-193).  The
four feature groups are initialised to empty dicts `{}` (modelled as `none`)
and only filled in when `cv2.imdecode` succeeds; the `error` key is written
only by the `except` branch. -/
structure CVAnalysis where
  building_detection : Option BuildingDetection
  vehicle_detection : Option VehicleDetection
  infrastructure_features : Option InfraFeatures
  area_characteristics : Option AreaChars
  error : Option String

/-- `_computer_vision_analysis` (lines 148-193): the input is the result of
`cv2.imdecode` on the byte buffer — `none` for an undecodable image.  On
`none` the function returns the initial skeleton unchanged (lines 170-171):
all four feature groups are still the empty dict and **no** `error` key is
set (the `except` branch, the only writer of `error`, models exceptions
raised by the OpenCV calls, which the pure happy path here never raises). -/
def computerVisionAnalysis (decoded : Option DecodedImage) : CVAnalysis :=
  match decoded with
  | none => ⟨none, none, none, none, none⟩
  | some img =>
      ⟨some (detectBuildings img.edgeContours),
       some (detectVehicles img.brightContours),
       some (analyzeInfrastructure img),
       some (analyzeAreaCharacteristics img),
       none⟩

/-- The risk analyzer's defaulted read
`visual_features.get('building_detection', {}).get('building_count', 0)`
applied to a possibly-empty building-detection dict. -/
def bdCountD (o : Option BuildingDetection) : ℕ :=
  (o.map (·.building_count)).getD 0

/-- Defaulted read of `total_building_area` (default `0`). -/
def bdTotalAreaD (o : Option BuildingDetection) : ℚ :=
  (o.map (·.total_building_area)).getD 0

/-- Defaulted read of `vehicle_count` (default `0`). -/
def vdCountD (o : Option VehicleDetection) : ℕ :=
  (o.map (·.vehicle_count)).getD 0

/-- Defaulted read of `detected_lines` (default `0`). -/
def ifLinesD (o : Option InfraFeatures) : ℕ :=
  (o.map (·.detected_lines)).getD 0

/-! ## Risk analysis (`risk_analyzer.py`) -/

/-- The address-validation dict as read by the risk analyzer: `is_valid`,
`location_type` (default `'unknown'`), `neighborhood_context` (default
`'unknown'`), `nearby_amenities` (default `[]`). -/
structure GeoContext where
  is_valid : Bool
  location_type : String
  neighborhood_context : String
  nearby_amenities : List String

/-- The `visual_features` sub-dict of a satellite-analysis result as the risk
analyzer reads it. -/
structure VisualFeatures where
  building_detection : BuildingDetection
  vehicle_detection : VehicleDetection

/-- The satellite-analysis dict as read by the risk analyzer:
`analysis_completed`, `visual_features`, the AI assessment's
`positive_indicators` (read from `infrastructure_assessment`),
`risk_indicators`, and the AI `confidence_score`
(`ContextualAssessment.confidence`). -/
structure SatelliteData where
  analysis_completed : Bool
  visual_features : VisualFeatures
  positive_indicators : List String
  risk_indicators : List String
  confidence_score : ℚ

/-- The dict built by `_analyze_address_risk` (lines 110-115): keys
`risk_score`, `risk_factors`, `positive_factors`, `address_quality`. -/
structure AddressRisk where
  risk_score : ℚ
  risk_factors : List String
  positive_factors : List String
  address_quality : String

/-- The dict built by `_analyze_satellite_risk` (lines 172-177): keys
`risk_score`, `risk_factors`, `positive_factors`, `infrastructure_quality` —
and no others. -/
structure SatelliteRisk where
  risk_score : ℚ
  risk_factors : List String
  positive_factors : List String
  infrastructure_quality : String

/-- The dict built by `_analyze_business_compatibility` (lines 250-255). -/
structure CompatibilityRisk where
  risk_score : ℚ
  compatibility_rating : String
  risk_factors : List String
  positive_factors : List String

/-- `_get_expected_locations` (lines 444-455): lookup on the lowercased
business type, defaulting to `['commercial']`. -/
def getExpectedLocations (business_type : String) : List String :=
  let k := strLower business_type
  if k = "logistics" then ["industrial", "commercial"]
  else if k = "manufacturing" then ["industrial"]
  else if k = "technology" then ["commercial", "office"]
  else if k = "consulting" then ["commercial", "office"]
  else if k = "retail" then ["commercial"]
  else if k = "restaurant" then ["commercial"]
  else ["commercial"]

/-- `_analyze_address_risk` (lines 108-168).  Each rule's score increment,
risk factors, and positive factors; the `if/elif` chain at lines 128-141 is
kept as a single three-way branch.  Note the raw (not lowercased)
`business_type` in the `commercial` branch (line 137) and the neighborhood
rule (line 146), exactly as in the source. -/
def analyzeAddressRisk (d : GeoContext) (business_type : String) : AddressRisk :=
  if d.is_valid = false then
    ⟨9/10, ["Address not found or invalid"], [], "INVALID"⟩
  else
    let expected := getExpectedLocations business_type
    let loc : ℚ × List String × List String :=
      if d.location_type = "residential" then
        (2/5, ["Business registered at residential address"], [])
      else if d.location_type ∈ expected then
        (0, [], ["Address in appropriate " ++ d.location_type ++ " area"])
      else if d.location_type = "commercial" ∧
          ¬(business_type = "technology" ∨ business_type = "consulting") then
        (1/10, ["Business type may not match commercial location"], [])
      else (0, [], [])
    let nb : ℚ × List String :=
      if (d.neighborhood_context = "remote" ∨ d.neighborhood_context = "rural") ∧
          (business_type = "technology" ∨ business_type = "consulting") then
        (3/10, ["Tech/consulting business in remote location"])
      else (0, [])
    let amen : List String :=
      if d.nearby_amenities.any
          (fun a => decide (a ∈ ["bank", "office", "commercial", "industrial"])) then
        ["Business-supporting amenities nearby"]
      else []
    let score := loc.1 + nb.1
    let quality :=
      if score < 1/5 then "EXCELLENT" else if score < 2/5 then "GOOD" else "POOR"
    ⟨score, loc.2.1 ++ nb.2, loc.2.2 ++ amen, quality⟩

/-- Building rule of `_analyze_satellite_risk` (lines 189-197). -/
def satBuildingStep (bd : BuildingDetection) : ℚ × List String × List String :=
  if bd.building_count = 0 then
    (1/2, ["No buildings detected at registered address"], [])
  else if bd.building_count > 0 ∧ bd.largest_building_area > 5000 then
    (0, [], ["Substantial building infrastructure present"])
  else (0, [], [])

/-- Vehicle rule of `_analyze_satellite_risk` (lines 199-209); the business
type is compared raw, as in the source. -/
def satVehicleStep (vc : ℕ) (business_type : String) : ℚ × List String × List String :=
  if vc > 5 then
    (0, [], ["Multiple vehicles present - signs of activity"])
  else if vc = 0 ∧ (business_type = "logistics" ∨ business_type = "transport") then
    (3/10, ["No vehicles visible for logistics/transport business"], [])
  else (0, [], [])

/-- AI-indicator rule of `_analyze_satellite_risk` (lines 211-223). -/
def satIndicatorStep (pi : List String) : ℚ × List String × List String :=
  if pi.length ≥ 3 then
    (0, [], ["Strong infrastructure indicators from AI analysis"])
  else if pi.length = 0 then
    (1/5, ["Limited infrastructure indicators"], [])
  else (0, [], [])

/-- AI risk-indicator rule of `_analyze_satellite_risk` (lines 225-229):
add `min(0.4, count * 0.1)` and append the first three indicators. -/
def satRiskIndicatorStep (ri : List String) : ℚ × List String :=
  if ri ≠ [] then (min (2/5) ((ri.length : ℚ) * (1/10)), ri.take 3)
  else (0, [])

/-- `_analyze_satellite_risk` (lines 170-239).  No clamping is performed on
the accumulated score. -/
def analyzeSatelliteRisk (d : SatelliteData) (business_type : String) : SatelliteRisk :=
  if d.analysis_completed = false then
    ⟨3/10, ["Satellite analysis unavailable"], [], "UNKNOWN"⟩
  else
    let s1 := satBuildingStep d.visual_features.building_detection
    let s2 := satVehicleStep d.visual_features.vehicle_detection.vehicle_count business_type
    let s3 := satIndicatorStep d.positive_indicators
    let s4 := satRiskIndicatorStep d.risk_indicators
    let score := s1.1 + s2.1 + s3.1 + s4.1
    let quality :=
      if score < 1/5 ∧ d.positive_indicators.length ≥ 2 then "EXCELLENT"
      else if score < 2/5 then "ADEQUATE" else "POOR"
    ⟨score, s1.2.1 ++ s2.2.1 ++ s3.2.1 ++ s4.2, s1.2.2 ++ s2.2.2 ++ s3.2.2, quality⟩

/-- High-risk incompatibility rule of `_analyze_business_compatibility`
(lines 265-270). -/
def compatResidentialStep (k location_type business_type : String) : ℚ × List String :=
  if (k = "logistics" ∨ k = "manufacturing") ∧ location_type = "residential" then
    (3/5, ["Industrial " ++ business_type ++ " business at residential location"])
  else (0, [])

/-- Medium-risk incompatibility rule (lines 272-277). -/
def compatIndustrialStep (k location_type business_type : String) : ℚ × List String :=
  if (k = "technology" ∨ k = "consulting") ∧ location_type = "industrial" then
    (1/5, [business_type ++ " business in industrial area (unusual but possible)"])
  else (0, [])

/-- Infrastructure-size rule (lines 284-294). -/
def compatSizeStep (k : String) (total_building_area : ℚ) : ℚ × List String × List String :=
  if k = "logistics" ∨ k = "manufacturing" then
    if total_building_area < 1000 then
      (3/10, ["Small infrastructure for industrial business type"], [])
    else (0, [], ["Adequate infrastructure size for business type"])
  else (0, [], [])

/-- Activity-level rule (lines 296-303). -/
def compatVehicleStep (k : String) (vc : ℕ) : ℚ × List String :=
  if (k = "logistics" ∨ k = "transport") ∧ vc < 2 then
    (1/5, ["Low vehicle activity for transport/logistics business"])
  else (0, [])

/-- `_analyze_business_compatibility` (lines 241-315).  The declared-activity
argument is accepted but never scored; the `expected_infrastructure` lookup at
lines 258-260 is computed and never used, so it is omitted.  No clamping is
performed on the accumulated score. -/
def analyzeBusinessCompatibility (addr : GeoContext) (sat : SatelliteData)
    (business_type declared_activity : String) : CompatibilityRisk :=
  let _ := declared_activity
  let k := strLower business_type
  let s1 := compatResidentialStep k addr.location_type business_type
  let s2 := compatIndustrialStep k addr.location_type business_type
  let s3 := compatSizeStep k sat.visual_features.building_detection.total_building_area
  let s4 := compatVehicleStep k sat.visual_features.vehicle_detection.vehicle_count
  let score := s1.1 + s2.1 + s3.1 + s4.1
  let rating :=
    if score < 3/20 then "EXCELLENT"
    else if score < 7/20 then "GOOD"
    else if score < 11/20 then "QUESTIONABLE"
    else "POOR"
  ⟨score, rating, s1.2 ++ s2.2 ++ s3.2.1 ++ s4.2, s3.2.2⟩

/-- Line 343 of the source reads `satellite_risk.get('confidence_score', 0.5)`
where `satellite_risk` is the dict built by `_analyze_satellite_risk` — whose
only keys are `risk_score`, `risk_factors`, `positive_factors` and
`infrastructure_quality`.  The key is never present, so the defaulted `.get`
always returns the default. -/
def SatelliteRisk.confGet (_ : SatelliteRisk) (d : ℚ) : ℚ := d

/-- Weight of the address component (line 326). -/
def addressWeight : ℚ := 3/10

/-- Weight of the satellite component (line 327). -/
def satelliteWeight : ℚ := 2/5

/-- Weight of the compatibility component (line 328). -/
def compatibilityWeight : ℚ := 3/10

/-- `_calculate_overall_risk_score` (lines 317-347): the weighted sum of the
three partial scores, a confidence adjustment read via
`satellite_risk.get('confidence_score', 0.5)` (see `SatelliteRisk.confGet`),
then `min(1.0, overall)`. -/
def calculateOverallRiskScore (a : AddressRisk) (s : SatelliteRisk)
    (c : CompatibilityRisk) : ℚ :=
  let overall := a.risk_score * addressWeight + s.risk_score * satelliteWeight +
    c.risk_score * compatibilityWeight
  let satellite_data_confidence := s.confGet (1/2)
  let overall := if satellite_data_confidence < 3/10 then overall + 1/10 else overall
  min 1 overall

/-- `_calculate_confidence_level` (lines 422-442): the mean of the
address-validity term, the satellite data's `confidence_score`, and the
completeness term. -/
def calculateConfidenceLevel (addr : GeoContext) (sat : SatelliteData) : ℚ :=
  ((if addr.is_valid then (4/5 : ℚ) else 3/10) + sat.confidence_score +
    (if sat.analysis_completed then (9/10 : ℚ) else 2/5)) / 3

/-- Renders a score the way Python's f-string `{score:.2f}` does on the score
values this engine produces: two decimal places (ties rounded up, which
agrees with the binary-float rendering at every value the engine reaches). -/
def fmt2 (q : ℚ) : String :=
  let n : Int := ⌊q * 100 + 1/2⌋
  let m := n.natAbs
  let frac := m % 100
  (if n < 0 then "-" else "") ++ toString (m / 100) ++ "." ++
    (if frac < 10 then "0" else "") ++ toString frac

/-- Models Python's substring test `pat in s` for a non-empty pattern:
`String.splitOn` splits at every occurrence of the pattern, so the pattern
occurs iff there is more than one chunk. -/
def containsSub (s pat : String) : Bool := (s.splitOn pat).length > 1

/-- Models `pat in str(factors).lower()` (lines 400, 402): the patterns used
(`"residential"`, `"no buildings"`) contain no quote or comma, so they occur
in the `str(...)` rendering of the list iff they occur in some element. -/
def anyContains (l : List String) (pat : String) : Bool :=
  l.any (fun f => containsSub (strLower f) pat)

/-- `_generate_recommendation_text` (lines 389-420). -/
def generateRecommendationText (risk_level : String) (score : ℚ)
    (risk_factors positive_factors : List String) : String :=
  if risk_level = "HIGH" then
    let t := "🚨 HIGH RISK (Score: " ++ fmt2 score ++ "): "
    let t := if anyContains risk_factors "residential" then
        t ++ "ALERT: Registered address is residential. " else t
    let t := if anyContains risk_factors "no buildings" then
        t ++ "No commercial infrastructure visible. " else t
    t ++ "High probability of shell company. Block registration and forward for manual review."
  else if risk_level = "MEDIUM" then
    let t := "⚠️ MEDIUM RISK (Score: " ++ fmt2 score ++ "): " ++
      "The company may be legitimate, but shows some risk indicators. "
    let t := if positive_factors ≠ [] then
        t ++ "Positive points: " ++
          String.intercalate ", " (positive_factors.take 2) ++ ". "
      else t
    t ++ "Additional document verification recommended."
  else
    let t := "✅ LOW RISK (Score: " ++ fmt2 score ++ "): " ++ "Address validated. "
    let t := if positive_factors ≠ [] then
        t ++ "Adequate infrastructure identified: " ++
          String.intercalate ", " (positive_factors.take 2) ++ ". "
      else t
    t ++ "Automatic approval recommended."

/-- The dict returned by `analyze_comprehensive_risk` after the
`_generate_final_assessment` update (lines 56-106, 349-387).  The nested
`business_information` dict is flattened to its two fields and the
`detailed_assessment` map, keyed `address_risk` / `satellite_risk` /
`compatibility_risk` in insertion order, to the three typed fields. -/
structure AnalysisResult where
  cnpj : String
  analysis_timestamp : String
  address_validation : GeoContext
  satellite_analysis : SatelliteData
  business_type : String
  declared_activity : String
  risk_factors : List String
  positive_factors : List String
  overall_risk_score : ℚ
  risk_level : String
  recommendation : String
  recommendation_text : String
  addr_assessment : AddressRisk
  sat_assessment : SatelliteRisk
  compat_assessment : CompatibilityRisk
  confidence_level : ℚ

/-- `analyze_comprehensive_risk` (lines 35-106) composed with
`_generate_final_assessment` (lines 349-387).  The timestamp written at line
58 (`datetime.now().isoformat()`) is modelled as the explicit input `now`.
Factor lists are concatenated over `detailed_assessment.values()` in
insertion order — address, satellite, compatibility — and truncated to their
first 5 entries with **no** deduplication (lines 352-358, 384-385).
Classification uses the two configured thresholds (lines 360-369). -/
def analyzeComprehensiveRisk (cnpj now : String) (addr : GeoContext)
    (sat : SatelliteData) (business_type declared_activity : String) : AnalysisResult :=
  let a := analyzeAddressRisk addr business_type
  let s := analyzeSatelliteRisk sat business_type
  let c := analyzeBusinessCompatibility addr sat business_type declared_activity
  let overall := calculateOverallRiskScore a s c
  let allRF := a.risk_factors ++ s.risk_factors ++ c.risk_factors
  let allPF := a.positive_factors ++ s.positive_factors ++ c.positive_factors
  let lvlRec : String × String :=
    if overall ≥ HIGH_RISK_THRESHOLD then ("HIGH", "BLOCK")
    else if overall ≥ MEDIUM_RISK_THRESHOLD then ("MEDIUM", "MANUAL_REVIEW")
    else ("LOW", "AUTO_APPROVE")
  { cnpj := cnpj
    analysis_timestamp := now
    address_validation := addr
    satellite_analysis := sat
    business_type := business_type
    declared_activity := declared_activity
    risk_factors := allRF.take 5
    positive_factors := allPF.take 5
    overall_risk_score := overall
    risk_level := lvlRec.1
    recommendation := lvlRec.2
    recommendation_text := generateRecommendationText lvlRec.1 overall allRF allPF
    addr_assessment := a
    sat_assessment := s
    compat_assessment := c
    confidence_level := calculateConfidenceLevel addr sat }

/-- Erases the only wall-clock-derived field of an analysis result. -/
def stripTimestamp (r : AnalysisResult) : AnalysisResult :=
  { r with analysis_timestamp := "" }

/-! ## Generic unfolding lemmas for the fused result -/

theorem fusion_overall_eq (cnpj now : String) (addr : GeoContext)
    (sat : SatelliteData) (bt dt : String) :
    (analyzeComprehensiveRisk cnpj now addr sat bt dt).overall_risk_score =
      calculateOverallRiskScore (analyzeAddressRisk addr bt)
        (analyzeSatelliteRisk sat bt)
        (analyzeBusinessCompatibility addr sat bt dt) := rfl

theorem fusion_riskLevel_eq (cnpj now : String) (addr : GeoContext)
    (sat : SatelliteData) (bt dt : String) :
    (analyzeComprehensiveRisk cnpj now addr sat bt dt).risk_level =
      (if (analyzeComprehensiveRisk cnpj now addr sat bt dt).overall_risk_score ≥
          HIGH_RISK_THRESHOLD then "HIGH"
       else if (analyzeComprehensiveRisk cnpj now addr sat bt dt).overall_risk_score ≥
          MEDIUM_RISK_THRESHOLD then "MEDIUM"
       else "LOW") := by
  unfold analyzeComprehensiveRisk
  dsimp only
  split_ifs <;> rfl

theorem fusion_recommendation_eq (cnpj now : String) (addr : GeoContext)
    (sat : SatelliteData) (bt dt : String) :
    (analyzeComprehensiveRisk cnpj now addr sat bt dt).recommendation =
      (if (analyzeComprehensiveRisk cnpj now addr sat bt dt).overall_risk_score ≥
          HIGH_RISK_THRESHOLD then "BLOCK"
       else if (analyzeComprehensiveRisk cnpj now addr sat bt dt).overall_risk_score ≥
          MEDIUM_RISK_THRESHOLD then "MANUAL_REVIEW"
       else "AUTO_APPROVE") := by
  unfold analyzeComprehensiveRisk
  dsimp only
  split_ifs <;> rfl

theorem fusion_riskFactors_eq (cnpj now : String) (addr : GeoContext)
    (sat : SatelliteData) (bt dt : String) :
    (analyzeComprehensiveRisk cnpj now addr sat bt dt).risk_factors =
      ((analyzeAddressRisk addr bt).risk_factors ++
        (analyzeSatelliteRisk sat bt).risk_factors ++
        (analyzeBusinessCompatibility addr sat bt dt).risk_factors).take 5 := rfl

theorem fusion_positiveFactors_eq (cnpj now : String) (addr : GeoContext)
    (sat : SatelliteData) (bt dt : String) :
    (analyzeComprehensiveRisk cnpj now addr sat bt dt).positive_factors =
      ((analyzeAddressRisk addr bt).positive_factors ++
        (analyzeSatelliteRisk sat bt).positive_factors ++
        (analyzeBusinessCompatibility addr sat bt dt).positive_factors).take 5 := rfl

/-! ## Concrete inputs used in the scenario theorems -/

/-- Scenario C address context: valid, residential, urban, no amenities. -/
def addrScenC : GeoContext := ⟨true, "residential", "urban", []⟩

/-- Scenario C satellite data: analysis completed, one building, no vehicles,
no AI indicators either way, contextual confidence 0.5. -/
def satScenC : SatelliteData := ⟨true, ⟨⟨1, 0, 0, []⟩, ⟨0, []⟩⟩, [], [], 1/2⟩

/-- An invalid address context (Scenario A shape). -/
def addrInvalid : GeoContext := ⟨false, "commercial", "urban", []⟩

/-- A fully clean satellite signal: completed analysis, three large buildings,
six vehicles, three positive AI indicators, no AI risk indicators. -/
def satClean : SatelliteData :=
  ⟨true, ⟨⟨3, 8000, 6000, []⟩, ⟨6, []⟩⟩, ["i1", "i2", "i3"], [], 9/10⟩

/-! ## C1 — the low-confidence fusion penalty -/

/-- C1: the claim says that when the satellite contextual confidence supplied
with the satellite signal is below 0.3, the overall risk score is the
weighted sum plus the 0.1 penalty.  In the source the penalty branch reads
`satellite_risk.get('confidence_score', 0.5)` from the scorer's result dict,
which never carries that key, so the branch always sees the default 0.5 and
never fires: the overall score is independent of the supplied confidence and
always equals the clamped weighted sum with no penalty. -/
theorem C1_confidence_penalty_dead :
    (∀ (cnpj now : String) (addr : GeoContext) (sat : SatelliteData)
        (bt dt : String) (q : ℚ),
      (analyzeComprehensiveRisk cnpj now addr
          { sat with confidence_score := q } bt dt).overall_risk_score =
        (analyzeComprehensiveRisk cnpj now addr sat bt dt).overall_risk_score) ∧
    (∀ (a : AddressRisk) (s : SatelliteRisk) (c : CompatibilityRisk),
      calculateOverallRiskScore a s c =
        min 1 (a.risk_score * addressWeight + s.risk_score * satelliteWeight +
          c.risk_score * compatibilityWeight)) := by
  constructor
  · intro cnpj now addr sat bt dt q
    rfl
  · intro a s c
    norm_num [calculateOverallRiskScore, SatelliteRisk.confGet]

/-! ## C2 — Scenario C -/

/-- C2 counterexample: on exactly the Scenario C inputs (technology business,
valid residential address, one building, no vehicles, no AI indicators) the
computed `overall_risk_score` is 0.3·0.4 + 0.4·0.2 = 0.2, strictly below the
medium threshold 0.4, and the recommendation **is** AUTO_APPROVE — refuting
the claim that the score crosses the medium threshold and the recommendation
is not AUTO_APPROVE. -/
theorem C2_scenarioC_refuted :
    (analyzeComprehensiveRisk "11.111.111/0001-11" "2024-01-01T00:00:00"
      addrScenC satScenC "technology" "software development").overall_risk_score <
        MEDIUM_RISK_THRESHOLD ∧
    (analyzeComprehensiveRisk "11.111.111/0001-11" "2024-01-01T00:00:00"
      addrScenC satScenC "technology" "software development").recommendation =
        "AUTO_APPROVE" := by
  have ha : analyzeAddressRisk addrScenC "technology" =
      ⟨2/5, ["Business registered at residential address"], [], "POOR"⟩ := by
    simp [analyzeAddressRisk, addrScenC, getExpectedLocations, strLower]
    norm_num
  have hs : analyzeSatelliteRisk satScenC "technology" =
      ⟨1/5, ["Limited infrastructure indicators"], [], "ADEQUATE"⟩ := by
    simp [analyzeSatelliteRisk, satScenC, satBuildingStep, satVehicleStep,
      satIndicatorStep, satRiskIndicatorStep]
    norm_num
  have hc : analyzeBusinessCompatibility addrScenC satScenC "technology"
        "software development" = ⟨0, "EXCELLENT", [], []⟩ := by
    simp [analyzeBusinessCompatibility, addrScenC, satScenC, compatResidentialStep,
      compatIndustrialStep, compatSizeStep, compatVehicleStep, strLower]
  have hov : (analyzeComprehensiveRisk "11.111.111/0001-11" "2024-01-01T00:00:00"
      addrScenC satScenC "technology" "software development").overall_risk_score =
        1/5 := by
    rw [fusion_overall_eq, ha, hs, hc]
    norm_num [calculateOverallRiskScore, SatelliteRisk.confGet, addressWeight,
      satelliteWeight, compatibilityWeight]
  refine ⟨?_, ?_⟩
  · rw [hov]; norm_num [MEDIUM_RISK_THRESHOLD]
  · rw [fusion_recommendation_eq, hov]
    norm_num [HIGH_RISK_THRESHOLD, MEDIUM_RISK_THRESHOLD]

/-- C2 (amended): on the Scenario C inputs the weighted fusion yields
`overall_risk_score = 0.2` — the +0.4 address and +0.2 satellite partials are
weighted by 0.3 and 0.4 before being summed — which stays below the medium
threshold 0.4, so `risk_level = LOW` and `recommendation = AUTO_APPROVE`. -/
theorem C2_scenarioC_actual :
    (analyzeComprehensiveRisk "11.111.111/0001-11" "2024-01-01T00:00:00"
      addrScenC satScenC "technology" "software development").overall_risk_score =
        1/5 ∧
    (analyzeComprehensiveRisk "11.111.111/0001-11" "2024-01-01T00:00:00"
      addrScenC satScenC "technology" "software development").risk_level = "LOW" := by
  have ha : analyzeAddressRisk addrScenC "technology" =
      ⟨2/5, ["Business registered at residential address"], [], "POOR"⟩ := by
    simp [analyzeAddressRisk, addrScenC, getExpectedLocations, strLower]
    norm_num
  have hs : analyzeSatelliteRisk satScenC "technology" =
      ⟨1/5, ["Limited infrastructure indicators"], [], "ADEQUATE"⟩ := by
    simp [analyzeSatelliteRisk, satScenC, satBuildingStep, satVehicleStep,
      satIndicatorStep, satRiskIndicatorStep]
    norm_num
  have hc : analyzeBusinessCompatibility addrScenC satScenC "technology"
        "software development" = ⟨0, "EXCELLENT", [], []⟩ := by
    simp [analyzeBusinessCompatibility, addrScenC, satScenC, compatResidentialStep,
      compatIndustrialStep, compatSizeStep, compatVehicleStep, strLower]
  have hov : (analyzeComprehensiveRisk "11.111.111/0001-11" "2024-01-01T00:00:00"
      addrScenC satScenC "technology" "software development").overall_risk_score =
        1/5 := by
    rw [fusion_overall_eq, ha, hs, hc]
    norm_num [calculateOverallRiskScore, SatelliteRisk.confGet, addressWeight,
      satelliteWeight, compatibilityWeight]
  refine ⟨hov, ?_⟩
  rw [fusion_riskLevel_eq, hov]
  norm_num [HIGH_RISK_THRESHOLD, MEDIUM_RISK_THRESHOLD]

/-! ## C4 — determinism -/

/-- C4 counterexample: two runs on identical `GeoContext` /
`ImageFeatureSet` / `ContextualAssessment` / business-type inputs but
different wall-clock readings (`datetime.now().isoformat()` at line 58)
return assessments that are not byte-identical: the `analysis_timestamp`
field differs, so the returned dicts differ. -/
theorem C4_timestamp_differs :
    (analyzeComprehensiveRisk "11.111.111/0001-11" "2024-01-01T00:00:00"
        addrScenC satScenC "technology" "software development").analysis_timestamp ≠
      (analyzeComprehensiveRisk "11.111.111/0001-11" "2024-01-01T00:00:01"
        addrScenC satScenC "technology" "software development").analysis_timestamp ∧
    analyzeComprehensiveRisk "11.111.111/0001-11" "2024-01-01T00:00:00"
        addrScenC satScenC "technology" "software development" ≠
      analyzeComprehensiveRisk "11.111.111/0001-11" "2024-01-01T00:00:01"
        addrScenC satScenC "technology" "software development" := by
  refine ⟨by decide, fun h => ?_⟩
  exact absurd (congrArg AnalysisResult.analysis_timestamp h) (by decide)

/-- C4 (amended): the core is deterministic modulo the wall clock — two runs
on identical inputs agree on every field of the returned assessment except
`analysis_timestamp`, which is read from `datetime.now()` at line 58. -/
theorem C4_deterministic_modulo_timestamp (cnpj t₁ t₂ : String)
    (addr : GeoContext) (sat : SatelliteData) (bt dt : String) :
    stripTimestamp (analyzeComprehensiveRisk cnpj t₁ addr sat bt dt) =
      stripTimestamp (analyzeComprehensiveRisk cnpj t₂ addr sat bt dt) := rfl

/-! ## C5 — invalid address -/

/-- C5 counterexample: with an invalid address but a fully clean satellite
signal and no compatibility penalties, the overall score is
min(1, 0.9·0.3) = 0.27 < 0.4, so the final assessment is LOW / AUTO_APPROVE —
refuting the claim that an invalid address forces HIGH / BLOCK regardless of
the satellite and compatibility inputs. -/
theorem C5_not_blocked :
    (analyzeComprehensiveRisk "22.222.222/0001-22" "2024-01-01T00:00:00"
      addrInvalid satClean "technology" "software development").risk_level = "LOW" ∧
    (analyzeComprehensiveRisk "22.222.222/0001-22" "2024-01-01T00:00:00"
      addrInvalid satClean "technology" "software development").recommendation =
        "AUTO_APPROVE" := by
  have ha : analyzeAddressRisk addrInvalid "technology" =
      ⟨9/10, ["Address not found or invalid"], [], "INVALID"⟩ := by
    simp [analyzeAddressRisk, addrInvalid]
  have hs : analyzeSatelliteRisk satClean "technology" =
      ⟨0, [], ["Substantial building infrastructure present",
        "Multiple vehicles present - signs of activity",
        "Strong infrastructure indicators from AI analysis"], "EXCELLENT"⟩ := by
    simp [analyzeSatelliteRisk, satClean, satBuildingStep, satVehicleStep,
      satIndicatorStep, satRiskIndicatorStep]
    norm_num
  have hc : analyzeBusinessCompatibility addrInvalid satClean "technology"
        "software development" = ⟨0, "EXCELLENT", [], []⟩ := by
    simp [analyzeBusinessCompatibility, addrInvalid, satClean, compatResidentialStep,
      compatIndustrialStep, compatSizeStep, compatVehicleStep, strLower]
  have hov : (analyzeComprehensiveRisk "22.222.222/0001-22" "2024-01-01T00:00:00"
      addrInvalid satClean "technology" "software development").overall_risk_score =
        27/100 := by
    rw [fusion_overall_eq, ha, hs, hc]
    norm_num [calculateOverallRiskScore, SatelliteRisk.confGet, addressWeight,
      satelliteWeight, compatibilityWeight]
  constructor
  · rw [fusion_riskLevel_eq, hov]
    norm_num [HIGH_RISK_THRESHOLD, MEDIUM_RISK_THRESHOLD]
  · rw [fusion_recommendation_eq, hov]
    norm_num [HIGH_RISK_THRESHOLD, MEDIUM_RISK_THRESHOLD]

/-- C5 (amended): for every input with `is_valid = false` the address scorer
does return risk score 0.9 with the invalid-address factor and no further
address rules (the short-circuit at lines 118-122), but the final assessment
is **not** HIGH / BLOCK regardless of the other signals: the invalid address
contributes only 0.9·0.3 = 0.27, and the overall score is
min(1, 0.27 + 0.4·satellite + 0.3·compatibility), so the risk level depends
on the satellite and compatibility scores. -/
theorem C5_invalid_address (cnpj now : String) (addr : GeoContext)
    (sat : SatelliteData) (bt dt : String) (h : addr.is_valid = false) :
    analyzeAddressRisk addr bt =
      ⟨9/10, ["Address not found or invalid"], [], "INVALID"⟩ ∧
    (analyzeComprehensiveRisk cnpj now addr sat bt dt).overall_risk_score =
      min 1 (27/100 + (analyzeSatelliteRisk sat bt).risk_score * satelliteWeight +
        (analyzeBusinessCompatibility addr sat bt dt).risk_score *
          compatibilityWeight) := by
  have ha : analyzeAddressRisk addr bt =
      ⟨9/10, ["Address not found or invalid"], [], "INVALID"⟩ := by
    simp [analyzeAddressRisk, h]
  refine ⟨ha, ?_⟩
  rw [fusion_overall_eq, ha]
  norm_num [calculateOverallRiskScore, SatelliteRisk.confGet, addressWeight,
    satelliteWeight, compatibilityWeight]

/-- C5 witness: the amended theorem applied at a concrete invalid address. -/
theorem C5_invalid_address_witness :
    analyzeAddressRisk addrInvalid "technology" =
      ⟨9/10, ["Address not found or invalid"], [], "INVALID"⟩ :=
  (C5_invalid_address "22.222.222/0001-22" "2024-01-01T00:00:00" addrInvalid
    satClean "technology" "software development" rfl).1

/-! ## C6 — factor aggregation -/

/-- Satellite data whose AI risk indicators repeat the same string. -/
def satDup : SatelliteData :=
  ⟨true, ⟨⟨1, 0, 0, []⟩, ⟨1, []⟩⟩, ["i1"], ["dup", "dup"], 1/2⟩

/-- C6 counterexample: with an AI risk-indicator list containing the same
string twice, the final `risk_factors` list is
`["Address not found or invalid", "dup", "dup"]` — the concatenation is
truncated to 5 but **not** deduplicated, refuting the order-preserving
deduplication part of the claim. -/
theorem C6_duplicates :
    (analyzeComprehensiveRisk "33.333.333/0001-33" "2024-01-01T00:00:00"
      addrInvalid satDup "retail" "retail store").risk_factors =
        ["Address not found or invalid", "dup", "dup"] ∧
    ¬ (analyzeComprehensiveRisk "33.333.333/0001-33" "2024-01-01T00:00:00"
      addrInvalid satDup "retail" "retail store").risk_factors.Nodup := by
  have ha : analyzeAddressRisk addrInvalid "retail" =
      ⟨9/10, ["Address not found or invalid"], [], "INVALID"⟩ := by
    simp [analyzeAddressRisk, addrInvalid]
  have hs : analyzeSatelliteRisk satDup "retail" =
      ⟨1/5, ["dup", "dup"], [], "ADEQUATE"⟩ := by
    simp [analyzeSatelliteRisk, satDup, satBuildingStep, satVehicleStep,
      satIndicatorStep, satRiskIndicatorStep]
    norm_num
  have hc : analyzeBusinessCompatibility addrInvalid satDup "retail"
        "retail store" = ⟨0, "EXCELLENT", [], []⟩ := by
    simp [analyzeBusinessCompatibility, addrInvalid, satDup, compatResidentialStep,
      compatIndustrialStep, compatSizeStep, compatVehicleStep, strLower]
  have hrf : (analyzeComprehensiveRisk "33.333.333/0001-33" "2024-01-01T00:00:00"
      addrInvalid satDup "retail" "retail store").risk_factors =
        ["Address not found or invalid", "dup", "dup"] := by
    rw [fusion_riskFactors_eq, ha, hs, hc]
    rfl
  refine ⟨hrf, ?_⟩
  rw [hrf]
  decide

/-- C6 (amended): the final `risk_factors` and `positive_factors` are the
concatenations of the three scorers' lists in the fixed order address,
satellite, compatibility, truncated to their first 5 entries — with **no**
deduplication — and therefore never exceed length 5. -/
theorem C6_factor_aggregation (cnpj now : String) (addr : GeoContext)
    (sat : SatelliteData) (bt dt : String) :
    (analyzeComprehensiveRisk cnpj now addr sat bt dt).risk_factors =
      ((analyzeAddressRisk addr bt).risk_factors ++
        (analyzeSatelliteRisk sat bt).risk_factors ++
        (analyzeBusinessCompatibility addr sat bt dt).risk_factors).take 5 ∧
    (analyzeComprehensiveRisk cnpj now addr sat bt dt).positive_factors =
      ((analyzeAddressRisk addr bt).positive_factors ++
        (analyzeSatelliteRisk sat bt).positive_factors ++
        (analyzeBusinessCompatibility addr sat bt dt).positive_factors).take 5 ∧
    (analyzeComprehensiveRisk cnpj now addr sat bt dt).risk_factors.length ≤ 5 ∧
    (analyzeComprehensiveRisk cnpj now addr sat bt dt).positive_factors.length ≤ 5 := by
  refine ⟨rfl, rfl, ?_, ?_⟩
  · rw [fusion_riskFactors_eq, List.length_take]
    exact min_le_left _ _
  · rw [fusion_positiveFactors_eq, List.length_take]
    exact min_le_left _ _

/-! ## C8 — monotonicity of the fusion -/

/-- C8: increasing any one partial risk score while holding the other two
fixed never decreases the overall risk score computed by the fusion. -/
theorem C8_fusion_monotone (a a' : AddressRisk) (s s' : SatelliteRisk)
    (c c' : CompatibilityRisk) :
    (a.risk_score ≤ a'.risk_score →
      calculateOverallRiskScore a s c ≤ calculateOverallRiskScore a' s c) ∧
    (s.risk_score ≤ s'.risk_score →
      calculateOverallRiskScore a s c ≤ calculateOverallRiskScore a s' c) ∧
    (c.risk_score ≤ c'.risk_score →
      calculateOverallRiskScore a s c ≤ calculateOverallRiskScore a s c') := by
  have key : ∀ (x : AddressRisk) (y : SatelliteRisk) (z : CompatibilityRisk),
      calculateOverallRiskScore x y z =
        min 1 (x.risk_score * (3/10) + y.risk_score * (2/5) +
          z.risk_score * (3/10)) := by
    intro x y z
    norm_num [calculateOverallRiskScore, SatelliteRisk.confGet, addressWeight,
      satelliteWeight, compatibilityWeight]
  refine ⟨fun h => ?_, fun h => ?_, fun h => ?_⟩ <;>
    · rw [key, key]
      refine min_le_min le_rfl ?_
      gcongr

/-- C8 witness: the monotonicity theorem applied at concrete signal scores
0.2 ≤ 0.8 in the address slot. -/
theorem C8_fusion_monotone_witness :
    calculateOverallRiskScore ⟨1/5, [], [], "GOOD"⟩ ⟨1/5, [], [], "ADEQUATE"⟩
        ⟨1/5, "GOOD", [], []⟩ ≤
      calculateOverallRiskScore ⟨4/5, [], [], "POOR"⟩ ⟨1/5, [], [], "ADEQUATE"⟩
        ⟨1/5, "GOOD", [], []⟩ :=
  (C8_fusion_monotone ⟨1/5, [], [], "GOOD"⟩ ⟨4/5, [], [], "POOR"⟩
    ⟨1/5, [], [], "ADEQUATE"⟩ ⟨1/5, [], [], "ADEQUATE"⟩
    ⟨1/5, "GOOD", [], []⟩ ⟨1/5, "GOOD", [], []⟩).1 (by norm_num)

/-! ## C3 — score clamping in the scorers -/

theorem satBuildingStep_bounds (bd : BuildingDetection) :
    0 ≤ (satBuildingStep bd).1 ∧ (satBuildingStep bd).1 ≤ 1/2 := by
  unfold satBuildingStep; split_ifs <;> norm_num

theorem satVehicleStep_bounds (vc : ℕ) (bt : String) :
    0 ≤ (satVehicleStep vc bt).1 ∧ (satVehicleStep vc bt).1 ≤ 3/10 := by
  unfold satVehicleStep; split_ifs <;> norm_num

theorem satIndicatorStep_bounds (pi : List String) :
    0 ≤ (satIndicatorStep pi).1 ∧ (satIndicatorStep pi).1 ≤ 1/5 := by
  unfold satIndicatorStep; split_ifs <;> norm_num

theorem satRiskIndicatorStep_bounds (ri : List String) :
    0 ≤ (satRiskIndicatorStep ri).1 ∧ (satRiskIndicatorStep ri).1 ≤ 2/5 := by
  unfold satRiskIndicatorStep
  split_ifs
  · exact ⟨le_min (by norm_num) (by positivity), min_le_left _ _⟩
  · norm_num

theorem satellite_score_bounds (d : SatelliteData) (bt : String) :
    0 ≤ (analyzeSatelliteRisk d bt).risk_score ∧
      (analyzeSatelliteRisk d bt).risk_score ≤ 7/5 := by
  unfold analyzeSatelliteRisk
  split_ifs with h
  · norm_num
  · dsimp only
    obtain ⟨h1a, h1b⟩ := satBuildingStep_bounds d.visual_features.building_detection
    obtain ⟨h2a, h2b⟩ :=
      satVehicleStep_bounds d.visual_features.vehicle_detection.vehicle_count bt
    obtain ⟨h3a, h3b⟩ := satIndicatorStep_bounds d.positive_indicators
    obtain ⟨h4a, h4b⟩ := satRiskIndicatorStep_bounds d.risk_indicators
    constructor <;> linarith

theorem address_score_bounds (addr : GeoContext) (bt : String) :
    0 ≤ (analyzeAddressRisk addr bt).risk_score ∧
      (analyzeAddressRisk addr bt).risk_score ≤ 9/10 := by
  unfold analyzeAddressRisk
  split_ifs <;> try norm_num
  all_goals (split_ifs <;> norm_num)

theorem compatResidentialStep_bounds (k lt bt : String) :
    0 ≤ (compatResidentialStep k lt bt).1 ∧
      (compatResidentialStep k lt bt).1 ≤ 3/5 := by
  unfold compatResidentialStep; split_ifs <;> norm_num

theorem compatIndustrialStep_bounds (k lt bt : String) :
    0 ≤ (compatIndustrialStep k lt bt).1 ∧
      (compatIndustrialStep k lt bt).1 ≤ 1/5 := by
  unfold compatIndustrialStep; split_ifs <;> norm_num

theorem compatSizeStep_bounds (k : String) (tba : ℚ) :
    0 ≤ (compatSizeStep k tba).1 ∧ (compatSizeStep k tba).1 ≤ 3/10 := by
  unfold compatSizeStep; split_ifs <;> norm_num

theorem compatVehicleStep_bounds (k : String) (vc : ℕ) :
    0 ≤ (compatVehicleStep k vc).1 ∧ (compatVehicleStep k vc).1 ≤ 1/5 := by
  unfold compatVehicleStep; split_ifs <;> norm_num

/-- The residential and industrial incompatibility rules can never both fire:
their location conditions conflict. -/
theorem compatResIndExclusive (k lt bt : String) :
    (compatResidentialStep k lt bt).1 + (compatIndustrialStep k lt bt).1 ≤ 3/5 := by
  by_cases h1 : (k = "logistics" ∨ k = "manufacturing") ∧ lt = "residential"
  · by_cases h2 : (k = "technology" ∨ k = "consulting") ∧ lt = "industrial"
    · exact absurd (h1.2.symm.trans h2.2) (by decide)
    · simp [compatResidentialStep, compatIndustrialStep, h1, h2]
  · have := (compatIndustrialStep_bounds k lt bt).2
    simp only [compatResidentialStep, if_neg h1]
    linarith

theorem compatibility_score_bounds (addr : GeoContext) (sat : SatelliteData)
    (bt dt : String) :
    0 ≤ (analyzeBusinessCompatibility addr sat bt dt).risk_score ∧
      (analyzeBusinessCompatibility addr sat bt dt).risk_score ≤ 11/10 := by
  unfold analyzeBusinessCompatibility
  dsimp only
  have h12 := compatResIndExclusive (strLower bt) addr.location_type bt
  have h1 := (compatResidentialStep_bounds (strLower bt) addr.location_type bt).1
  have h2 := (compatIndustrialStep_bounds (strLower bt) addr.location_type bt).1
  have h3 := compatSizeStep_bounds (strLower bt)
    sat.visual_features.building_detection.total_building_area
  have h4 := compatVehicleStep_bounds (strLower bt)
    sat.visual_features.vehicle_detection.vehicle_count
  constructor <;> linarith [h3.1, h3.2, h4.1, h4.2]

/-- Satellite input driving the satellite scorer above 1: no buildings, no
vehicles for a logistics business, no positive AI indicators, four AI risk
indicators. -/
def satOverflow : SatelliteData :=
  ⟨true, ⟨⟨0, 0, 0, []⟩, ⟨0, []⟩⟩, [], ["r1", "r2", "r3", "r4"], 1/2⟩

/-- Address/satellite input driving the compatibility scorer above 1: a
logistics business at a residential address with no infrastructure. -/
def addrResidential : GeoContext := ⟨true, "residential", "urban", []⟩

/-- C3 counterexample: the scorers do **not** clamp.  The satellite scorer
reaches 0.5 + 0.3 + 0.2 + 0.4 = 1.4 > 1 (no buildings, no vehicles for a
logistics business, no positive AI indicators, four risk indicators), and the
compatibility scorer reaches 0.6 + 0.3 + 0.2 = 1.1 > 1 (logistics at a
residential address, tiny building area, no vehicles) — refuting the claim
that every scorer's risk_score lies in [0,1]. -/
theorem C3_unclamped_scores :
    (analyzeSatelliteRisk satOverflow "logistics").risk_score = 7/5 ∧
    1 < (analyzeSatelliteRisk satOverflow "logistics").risk_score ∧
    (analyzeBusinessCompatibility addrResidential satOverflow "logistics"
      "freight").risk_score = 11/10 ∧
    1 < (analyzeBusinessCompatibility addrResidential satOverflow "logistics"
      "freight").risk_score := by
  have hs : (analyzeSatelliteRisk satOverflow "logistics").risk_score = 7/5 := by
    simp [analyzeSatelliteRisk, satOverflow, satBuildingStep, satVehicleStep,
      satIndicatorStep, satRiskIndicatorStep]
    norm_num
  have hc : (analyzeBusinessCompatibility addrResidential satOverflow "logistics"
      "freight").risk_score = 11/10 := by
    simp [analyzeBusinessCompatibility, addrResidential, satOverflow,
      compatResidentialStep, compatIndustrialStep, compatSizeStep,
      compatVehicleStep, strLower]
    norm_num
  exact ⟨hs, by rw [hs]; norm_num, hc, by rw [hc]; norm_num⟩

/-- C3 (amended): every scorer's risk_score is nonnegative and bounded —
satellite by 1.4, compatibility by 1.1, address by 0.9 — but the scorers do
not clamp to [0,1]: the satellite and compatibility scores can exceed 1. -/
theorem C3_score_bounds :
    (∀ (d : SatelliteData) (bt : String),
      0 ≤ (analyzeSatelliteRisk d bt).risk_score ∧
        (analyzeSatelliteRisk d bt).risk_score ≤ 7/5) ∧
    (∀ (addr : GeoContext) (sat : SatelliteData) (bt dt : String),
      0 ≤ (analyzeBusinessCompatibility addr sat bt dt).risk_score ∧
        (analyzeBusinessCompatibility addr sat bt dt).risk_score ≤ 11/10) ∧
    (∀ (addr : GeoContext) (bt : String),
      0 ≤ (analyzeAddressRisk addr bt).risk_score ∧
        (analyzeAddressRisk addr bt).risk_score ≤ 9/10) :=
  ⟨satellite_score_bounds, compatibility_score_bounds, address_score_bounds⟩

/-! ## C9 — building detection -/

/-- C9 counterexample: a 4-vertex contour of area exactly 1000 px² is
discarded (the source keeps `area > 1000`, strictly, at line 209 — the claim
says area ≥ 1000 is retained), and with eleven qualifying contours in
increasing-area order the reported `buildings` list is the first ten in
contour order — it omits the largest building (area 1011, which *is* the
reported `largest_building_area`), so it is not "the 10 largest by area". -/
theorem C9_boundary_and_order :
    (detectBuildings [⟨1000, 200, 4⟩]).building_count = 0 ∧
    (detectBuildings [⟨1001, 140, 4⟩, ⟨1002, 140, 4⟩, ⟨1003, 140, 4⟩,
      ⟨1004, 140, 4⟩, ⟨1005, 140, 4⟩, ⟨1006, 140, 4⟩, ⟨1007, 140, 4⟩,
      ⟨1008, 140, 4⟩, ⟨1009, 140, 4⟩, ⟨1010, 140, 4⟩,
      ⟨1011, 140, 4⟩]).largest_building_area = 1011 ∧
    ((detectBuildings [⟨1001, 140, 4⟩, ⟨1002, 140, 4⟩, ⟨1003, 140, 4⟩,
      ⟨1004, 140, 4⟩, ⟨1005, 140, 4⟩, ⟨1006, 140, 4⟩, ⟨1007, 140, 4⟩,
      ⟨1008, 140, 4⟩, ⟨1009, 140, 4⟩, ⟨1010, 140, 4⟩,
      ⟨1011, 140, 4⟩]).buildings.map (·.area)) =
      [1001, 1002, 1003, 1004, 1005, 1006, 1007, 1008, 1009, 1010] := by
  refine ⟨?_, ?_, ?_⟩ <;>
    norm_num [detectBuildings, pyMax, List.filter_cons, max_def]

/-- C9 (amended): building detection retains exactly the contours whose area
is *strictly* greater than 1000 px², counts only those whose polygon
approximation has at least 4 vertices, and reports the count of retained
contours, their summed area, the maximum area, and the **first** 10 retained
buildings in contour order (not the 10 largest by area). -/
theorem C9_detectBuildings_spec (cs : List Contour) :
    (detectBuildings cs).building_count =
      cs.countP (fun c => decide (1000 < c.area ∧ 4 ≤ c.approxVertexCount)) ∧
    (detectBuildings cs).buildings.length ≤ 10 ∧
    (∀ b ∈ (detectBuildings cs).buildings, 1000 < b.area ∧ 4 ≤ b.vertices) ∧
    (detectBuildings cs).buildings =
      ((cs.filter (fun c => decide (1000 < c.area ∧ 4 ≤ c.approxVertexCount))).map
        (fun c => Building.mk c.area c.approxVertexCount c.perimeter)).take 10 ∧
    (detectBuildings cs).total_building_area =
      ((cs.filter (fun c => decide (1000 < c.area ∧ 4 ≤ c.approxVertexCount))).map
        (·.area)).sum := by
  have hb : (detectBuildings cs).buildings =
      ((cs.filter (fun c => decide (1000 < c.area ∧ 4 ≤ c.approxVertexCount))).map
        (fun c => Building.mk c.area c.approxVertexCount c.perimeter)).take 10 := rfl
  refine ⟨?_, ?_, ?_, hb, ?_⟩
  · simp [detectBuildings, List.countP_eq_length_filter]
  · rw [hb, List.length_take]
    exact min_le_left _ _
  · intro b hb'
    rw [hb] at hb'
    obtain ⟨c, hc, rfl⟩ := List.mem_map.mp (List.mem_of_mem_take hb')
    have := of_decide_eq_true (List.mem_filter.mp hc).2
    exact ⟨this.1, this.2⟩
  · simp [detectBuildings, List.map_map]
    rfl

/-- C9 witness: the amended theorem applied to a single qualifying contour,
with the membership hypothesis discharged concretely. -/
theorem C9_detectBuildings_spec_witness : 1000 < (2000 : ℚ) ∧ 4 ≤ 5 :=
  (C9_detectBuildings_spec [⟨2000, 100, 5⟩]).2.2.1 ⟨2000, 5, 100⟩
    (by norm_num [detectBuildings, List.filter_cons])

/-! ## C10 — the commercial type-mismatch penalty -/

/-- The expected-location list of every business type except (lowercased)
`manufacturing` contains `commercial`; manufacturing's does not. -/
theorem commercial_in_expected (bt : String) :
    "commercial" ∈ getExpectedLocations bt ↔ strLower bt ≠ "manufacturing" := by
  unfold getExpectedLocations
  dsimp only
  split_ifs with h1 h2 h3 h4 h5 h6 <;> simp_all

/-- C10: for every valid address context with `location_type = commercial`,
the +0.1 type-mismatch penalty factor is in the address scorer's risk factors
iff the lowercased business type is `manufacturing`; for every other business
type (including unrecognized ones) the expected-location list contains
`commercial`, so the earlier appropriate-area branch fires instead and yields
its positive factor. -/
theorem C10_commercial_mismatch (addr : GeoContext) (bt : String)
    (hv : addr.is_valid = true) (hl : addr.location_type = "commercial") :
    ("Business type may not match commercial location" ∈
        (analyzeAddressRisk addr bt).risk_factors ↔
      strLower bt = "manufacturing") ∧
    (strLower bt ≠ "manufacturing" →
      "Address in appropriate commercial area" ∈
        (analyzeAddressRisk addr bt).positive_factors) := by
  unfold analyzeAddressRisk
  rw [if_neg (by simp [hv]), hl]
  dsimp only
  by_cases hm : strLower bt = "manufacturing"
  · have hbt : ¬(bt = "technology" ∨ bt = "consulting") := by
      rintro (rfl | rfl) <;> exact absurd hm (by decide)
    have hmem : ¬("commercial" ∈ getExpectedLocations bt) := by
      rw [commercial_in_expected]
      simp [hm]
    rw [if_neg (by decide : ¬("commercial" = "residential")), if_neg hmem,
      if_pos ⟨rfl, hbt⟩]
    refine ⟨⟨fun _ => hm, fun _ => ?_⟩, fun h => absurd hm h⟩
    simp
  · have hmem : "commercial" ∈ getExpectedLocations bt :=
      (commercial_in_expected bt).mpr hm
    rw [if_neg (by decide : ¬("commercial" = "residential")), if_pos hmem]
    constructor
    · simp only [List.mem_append]
      constructor
      · rintro (hin | hin)
        · simp at hin
        · by_cases hnb : (addr.neighborhood_context = "remote" ∨
              addr.neighborhood_context = "rural") ∧
              (bt = "technology" ∨ bt = "consulting")
          · rw [if_pos hnb] at hin
            simp at hin
          · rw [if_neg hnb] at hin
            simp at hin
      · intro h
        exact absurd h hm
    · intro _
      apply List.mem_append.mpr
      left
      have : "Address in appropriate commercial area" =
          "Address in appropriate " ++ "commercial" ++ " area" := by decide
      rw [this]
      simp

/-- C10 witness: the theorem applied at a concrete commercial address and the
business type `"Manufacturing"` (whose lowercasing is `manufacturing`). -/
theorem C10_commercial_mismatch_witness :
    "Business type may not match commercial location" ∈
      (analyzeAddressRisk ⟨true, "commercial", "urban", []⟩
        "Manufacturing").risk_factors :=
  (C10_commercial_mismatch ⟨true, "commercial", "urban", []⟩ "Manufacturing"
    rfl rfl).1.mpr (by decide)

/-! ## C7 — feature extraction on an undecodable image -/

/-- C7 counterexample: on an undecodable image (`cv2.imdecode` returns
`None`, line 170) the extractor returns the initial skeleton with all four
feature groups still empty and **no** error marker — the `error` key is only
written by the `except` branch — refuting the claim that the result is an
all-zero feature set tagged with an error marker. -/
theorem C7_no_error_marker :
    (computerVisionAnalysis none).error = none ∧
    (computerVisionAnalysis none).building_detection = none := ⟨rfl, rfl⟩

/-- C7 (amended): the extractor is total; on an undecodable image it returns
the skeleton result whose four feature groups are empty dicts — which the
risk analyzer's defaulted lookups read as zero building/vehicle/line counts
and zero areas — but which is *not* tagged with an error marker. -/
theorem C7_undecodable_image :
    computerVisionAnalysis none =
      ⟨none, none, none, none, none⟩ ∧
    bdCountD (computerVisionAnalysis none).building_detection = 0 ∧
    bdTotalAreaD (computerVisionAnalysis none).building_detection = 0 ∧
    vdCountD (computerVisionAnalysis none).vehicle_detection = 0 ∧
    ifLinesD (computerVisionAnalysis none).infrastructure_features = 0 :=
  ⟨rfl, rfl, rfl, rfl, rfl⟩

end KYC
